import Mathlib

/-!
Verification of the autoservice data-management layer.

Shallow embedding of the data layer of `src/main.py` (classes
`DatabaseManager` / `ProductManager` and the statistics routine of
`SalesHistoryWindow`), together with proofs about the spec's claims.

Modelling conventions:

* The SQLite database is a record of in-memory tables (`DB`).  Row ids are
  produced by `AUTOINCREMENT`; we keep explicit next-id counters.
* Timestamps (`created_at`, `updated_at`, `sale_date`) are omitted: no claim
  mentions them and they would need a clock model.
* Python `Decimal` values and IEEE-754 doubles are both embedded as exact
  rationals (`ℚ`).  The conversion `float(x)` performed by the source (and by
  the registered `sqlite3` adapter `Decimal -> float`) is embedded as
  `float64round`, the rounding of a rational to the nearest binary64 value
  (round to nearest, ties to even), exact for the normal finite range; the
  monetary values handled by the program are far inside that range, so
  overflow and subnormal behaviour are irrelevant and not modelled.
  Arithmetic performed by Python on floats (`*`, `+`, `/`) rounds each
  intermediate result, so it is embedded as the exact rational operation
  followed by `float64round`; Python integer arithmetic is exact.
* `NULL` columns (`manufacturer_id`) are `Option`; the Python code also uses
  the integer `0` as a "no identity" marker for products and passes the raw
  integer `0` as `manufacturer_id` in `get_related_products`, which we embed
  as `some 0`.
* SQLite enforces `CHECK(price >= 0)`, `CHECK(quantity > 0)`,
  `UNIQUE(main_product_id, related_product_id)` and
  `CHECK(main_product_id != related_product_id)`.  Foreign keys are declared
  but NOT enforced (the source never issues `PRAGMA foreign_keys = ON`), so
  the embedding does not check them either.  A raised `IntegrityError` that
  the source does not catch is embedded as `Option.none` / `Except.error`;
  the surrounding transaction rolls back, leaving the state unchanged.
* `ORDER BY <text column>` under SQLite's default BINARY collation is the
  byte-wise order of the UTF-8 encoding, which coincides with the code-point
  lexicographic order of Lean's `String` linear order.  Sorting is embedded
  with `List.insertionSort` (SQL leaves tie order unspecified; every claim
  only needs sortedness plus the multiset of rows).
* In `get_all_products`, the f-string `ORDER BY p.price {sort_order}` is only
  ever called with `'ASC'` or `'DESC'` (any other string would be an SQL
  syntax error); the embedding treats every non-`"DESC"` argument as `ASC`.
-/

/- The Batteries rational arithmetic definitions are `irreducible`, which
blocks evaluation inside `decide`; restore the default reducibility for this
development, where concrete evaluation of monetary arithmetic is needed. -/
attribute [local semireducible] Rat.mul Rat.inv Rat.add Rat.sub Rat.ofScientific

/-! ## Binary64 rounding model -/

/-- Number of binary digits of `n`, with explicit fuel so that the kernel can
evaluate it (`bitsFuel f n` is correct whenever `n < 2 ^ f`). -/
def bitsFuel : Nat → Nat → Nat
  | 0, _ => 0
  | f + 1, n => if n = 0 then 0 else bitsFuel f (n / 2) + 1

/-- Two to the integer power `k`, as a rational. -/
def pow2q (k : ℤ) : ℚ :=
  if 0 ≤ k then ((2 ^ k.toNat : ℕ) : ℚ) else (((2 ^ (-k).toNat : ℕ) : ℚ))⁻¹

/-- Floor of a rational as an integer (`q.num` and `q.den` are in lowest
terms with a positive denominator, so flooring is floor-division). -/
def ratFloor (q : ℚ) : ℤ := Int.fdiv q.num (q.den : ℤ)

/-- Round a rational to the nearest integer, ties to even -- the rounding
used by IEEE-754 binary64 arithmetic. -/
def roundEven (x : ℚ) : ℤ :=
  let n := ratFloor x
  let f := x - (n : ℚ)
  if f < 1 / 2 then n
  else if 1 / 2 < f then n + 1
  else if n % 2 = 0 then n else n + 1

/-- For `0 < q`, the unique `e` with `2 ^ e ≤ q < 2 ^ (e + 1)`, computed from
the bit lengths of numerator and denominator. -/
def ratExp2 (q : ℚ) : ℤ :=
  let g : ℤ := (bitsFuel 256 q.num.natAbs : ℤ) - (bitsFuel 256 q.den : ℤ)
  if pow2q g ≤ q then g else g - 1

/-- The IEEE-754 binary64 value nearest to the rational `q` (round to
nearest, ties to even), as an exact rational: the significand is scaled to
`[2^52, 2^53)`, rounded, and scaled back.  This embeds Python's `float(x)`
conversion and the rounding step of every float arithmetic operation, for
arguments in the normal finite range. -/
def float64round (q : ℚ) : ℚ :=
  if q = 0 then 0
  else
    let s := if q < 0 then -q else q
    let e := ratExp2 s
    let m : ℚ := ((roundEven (s * pow2q (52 - e)) : ℤ) : ℚ) * pow2q (e - 52)
    if q < 0 then -m else m

/-! ## Data model (`MODELS MODULE` of `src/main.py`)

The dataclasses, restricted to the fields the claims are about (timestamps
omitted, see the header).  Stored rows and query results reuse the same
`Product` shape in the source; decorated query results (`manufacturer_name`,
`related_products_count`, dataclass defaults `None` / `0`) are embedded as
the extension `ProductView`. -/

structure Manufacturer where
  id : Nat
  name : String
deriving DecidableEq

structure Product where
  id : Nat
  name : String
  price : ℚ
  description : String
  image_path : String
  manufacturer_id : Option Nat
  is_active : Bool
deriving DecidableEq

structure ProductView extends Product where
  manufacturer_name : Option String
  related_products_count : Nat
deriving DecidableEq

structure ProductRelation where
  id : Nat
  main_product_id : Nat
  related_product_id : Nat
deriving DecidableEq

/-- A `product_relations` row joined with its resolved target product
(`ProductRelation.related_product` in the source). -/
structure ProductRelationView where
  id : Nat
  main_product_id : Nat
  related_product_id : Nat
  related_product : Product
deriving DecidableEq

structure SalesHistory where
  id : Nat
  product_id : Nat
  quantity : Nat
  total_amount : ℚ
  customer_info : String
deriving DecidableEq

/-- The four tables of `autoservice.db` plus `AUTOINCREMENT` counters. -/
structure DB where
  manufacturers : List Manufacturer
  products : List Product
  relations : List ProductRelation
  sales : List SalesHistory
  nextProductId : Nat
  nextRelationId : Nat
  nextSaleId : Nat
deriving DecidableEq

/-! ## ProductManager operations -/

/-- The `LEFT JOIN manufacturers` decoration: display name of the product's
manufacturer, `none` when the reference is `NULL` or dangling. -/
def manufacturerName (db : DB) (mid : Option Nat) : Option String :=
  match mid with
  | none => none
  | some m => (db.manufacturers.find? (fun mf => mf.id == m)).map Manufacturer.name

/-- The correlated subquery
`SELECT COUNT(*) FROM product_relations pr WHERE pr.main_product_id = p.id`. -/
def relatedCount (db : DB) (pid : Nat) : Nat :=
  (db.relations.filter (fun r => r.main_product_id == pid)).length

/-- Decoration applied by `get_all_products` / `get_product_by_id`. -/
def decorate (db : DB) (p : Product) : ProductView :=
  { toProduct := p
    manufacturer_name := manufacturerName db p.manufacturer_id
    related_products_count := relatedCount db p.id }

/-- Decoration applied by `get_available_products_for_relation` (its query
has no relation-count subquery, so the dataclass default `0` is used). -/
def decorateNoCount (db : DB) (p : Product) : ProductView :=
  { toProduct := p
    manufacturer_name := manufacturerName db p.manufacturer_id
    related_products_count := 0 }

/-- Ordering used for `ORDER BY p.name ASC`. -/
def viewNameLe (a b : ProductView) : Prop := a.name ≤ b.name

/-- Ordering used for `ORDER BY p.price ASC`. -/
def viewPriceLe (a b : ProductView) : Prop := a.price ≤ b.price

/-- Ordering used for `ORDER BY p.price DESC`. -/
def viewPriceGe (a b : ProductView) : Prop := b.price ≤ a.price

instance : DecidableRel viewNameLe :=
  fun a b => inferInstanceAs (Decidable (a.name ≤ b.name))

instance : DecidableRel viewPriceLe :=
  fun a b => inferInstanceAs (Decidable (a.price ≤ b.price))

instance : DecidableRel viewPriceGe :=
  fun a b => inferInstanceAs (Decidable (b.price ≤ a.price))

instance : IsTotal ProductView viewNameLe := ⟨fun a b => le_total a.name b.name⟩

instance : IsTrans ProductView viewNameLe :=
  ⟨fun _ _ _ h h' => le_trans (α := String) h h'⟩

instance : IsTotal ProductView viewPriceLe := ⟨fun a b => le_total a.price b.price⟩

instance : IsTrans ProductView viewPriceLe :=
  ⟨fun _ _ _ h h' => le_trans (α := ℚ) h h'⟩

instance : IsTotal ProductView viewPriceGe := ⟨fun a b => le_total b.price a.price⟩

instance : IsTrans ProductView viewPriceGe :=
  ⟨fun _ _ _ h h' => le_trans (α := ℚ) h' h⟩

/-- Python truthiness of the `manufacturer_id` argument (`if manufacturer_id:`):
`None` and `0` are falsy, so they disable the filter. -/
def manufacturerTruthy : Option Nat → Bool
  | none => false
  | some m => m != 0

/-- Embeds `ProductManager.get_all_products`: optional exact-match manufacturer
filter, sort by price (`ASC`/`DESC`) when requested and by name ascending
otherwise, each row decorated with manufacturer name and relation count. -/
def get_all_products (db : DB) (manufacturer_id : Option Nat)
    (sort_by : Option String) (sort_order : String) : List ProductView :=
  let rows :=
    if manufacturerTruthy manufacturer_id then
      db.products.filter (fun p => p.manufacturer_id == manufacturer_id)
    else db.products
  let views := rows.map (decorate db)
  if sort_by == some "price" then
    if sort_order == "DESC" then List.insertionSort viewPriceGe views
    else List.insertionSort viewPriceLe views
  else List.insertionSort viewNameLe views

/-- Embeds `ProductManager.get_product_by_id`: first row with the given id,
decorated; `None` when absent. -/
def get_product_by_id (db : DB) (product_id : Nat) : Option ProductView :=
  (db.products.find? (fun p => p.id == product_id)).map (decorate db)

/-- Embeds `ProductManager.save_product`.  A product carrying an identity
(`product.id` truthy, i.e. nonzero) is updated in place; otherwise a row is
inserted under the next id.  The price is stored through `float(...)`
(binary64).  A stored price `< 0` violates `CHECK(price >= 0)` and raises
(`none`); on the update path the check only fires if a row is actually
updated. -/
def save_product (db : DB) (product : Product) : Option (Nat × DB) :=
  let stored := float64round product.price
  if product.id != 0 then
    if stored < 0 ∧ db.products.any (fun row => row.id == product.id) then none
    else
      some (product.id,
        { db with
          products := db.products.map (fun row =>
            if row.id == product.id then
              { row with
                name := product.name
                price := stored
                description := product.description
                image_path := product.image_path
                manufacturer_id := product.manufacturer_id
                is_active := product.is_active }
            else row) })
  else
    if stored < 0 then none
    else
      some (db.nextProductId,
        { db with
          products := db.products ++ [{ product with id := db.nextProductId, price := stored }]
          nextProductId := db.nextProductId + 1 })

/-- Embeds `ProductManager.delete_product`: removes every relation edge touching the
product (either endpoint), then the product row; one transaction. -/
def delete_product (db : DB) (product_id : Nat) : DB :=
  { db with
    relations := db.relations.filter
      (fun r => !(r.main_product_id == product_id || r.related_product_id == product_id))
    products := db.products.filter (fun p => !(p.id == product_id)) }

/-- Embeds `ProductManager.get_related_products`: the relation rows with the given
main product, inner-joined to their target product, restricted to active
targets.  The embedded target `Product` is rebuilt with `description=''` and
`manufacturer_id=0` exactly as in the source. -/
def get_related_products (db : DB) (product_id : Nat) : List ProductRelationView :=
  db.relations.filterMap (fun r =>
    if r.main_product_id == product_id then
      match db.products.find? (fun p => p.id == r.related_product_id) with
      | some p =>
        if p.is_active then
          some
            { id := r.id
              main_product_id := r.main_product_id
              related_product_id := r.related_product_id
              related_product :=
                { id := r.related_product_id
                  name := p.name
                  price := p.price
                  description := ""
                  image_path := p.image_path
                  manufacturer_id := some 0
                  is_active := p.is_active } }
        else none
      | none => none
    else none)

/-- Whether the ordered relation edge `(main, related)` is present -- the
condition under which `UNIQUE(main_product_id, related_product_id)` fires. -/
def edgeExists (db : DB) (main related : Nat) : Bool :=
  db.relations.any (fun r => r.main_product_id == main && r.related_product_id == related)

/-- Number of stored edges `(main, related)`. -/
def edgeCount (db : DB) (main related : Nat) : Nat :=
  (db.relations.filter
    (fun r => r.main_product_id == main && r.related_product_id == related)).length

/-- Embeds `ProductManager.add_related_product`: plain `INSERT`; an
`IntegrityError` (duplicate ordered pair, or self relation violating
`CHECK(main != related)`) is caught and turned into `None` with the state
unchanged. -/
def add_related_product (db : DB) (main_product_id related_product_id : Nat) :
    Option Nat × DB :=
  if main_product_id == related_product_id
      || edgeExists db main_product_id related_product_id then
    (none, db)
  else
    (some db.nextRelationId,
      { db with
        relations := db.relations ++
          [{ id := db.nextRelationId
             main_product_id := main_product_id
             related_product_id := related_product_id }]
        nextRelationId := db.nextRelationId + 1 })

/-- Embeds `ProductManager.remove_related_product`: unconditional delete by edge id. -/
def remove_related_product (db : DB) (relation_id : Nat) : DB :=
  { db with relations := db.relations.filter (fun r => !(r.id == relation_id)) }

/-- Embeds `ProductManager.get_available_products_for_relation`: every active
product other than the given one that is not already linked from it, ordered
by name, decorated with the manufacturer name. -/
def get_available_products_for_relation (db : DB) (product_id : Nat) :
    List ProductView :=
  List.insertionSort viewNameLe
    ((db.products.filter (fun p =>
      p.id != product_id && p.is_active &&
        !(db.relations.any (fun r =>
          r.main_product_id == product_id && r.related_product_id == p.id)))).map
      (decorateNoCount db))

/-- Failure modes of `ProductManager.add_sale`: the explicit
`ValueError("Товар не найден")` for an unknown product, and the
`CHECK(quantity > 0)` integrity violation. -/
inductive SaleError where
  | productNotFound
  | invalidQuantity
deriving DecidableEq

/-- Embeds `ProductManager.add_sale`: looks the product up (first, as in the
source), multiplies its current stored price by the quantity in float
arithmetic, and inserts the sales row with that frozen total.  Errors leave
the state unchanged (rollback). -/
def add_sale (db : DB) (product_id quantity : Nat) (customer_info : String) :
    Except SaleError Nat × DB :=
  match get_product_by_id db product_id with
  | none => (Except.error SaleError.productNotFound, db)
  | some product =>
    if quantity == 0 then (Except.error SaleError.invalidQuantity, db)
    else
      let total_amount := float64round (product.price * (quantity : ℚ))
      (Except.ok db.nextSaleId,
        { db with
          sales := db.sales ++
            [{ id := db.nextSaleId
               product_id := product_id
               quantity := quantity
               total_amount := total_amount
               customer_info := customer_info }]
          nextSaleId := db.nextSaleId + 1 })

/-! ## Statistics (`SalesHistoryWindow.update_statistics`) -/

structure Stats where
  total_quantity : Nat
  total_revenue : ℚ
  avg_sale : ℚ
deriving DecidableEq

/-- Embeds `SalesHistoryWindow.update_statistics`, restricted to the three computed
values (the label formatting is presentation).  `sum(sale.quantity ...)` is
exact Python integer arithmetic; `sum(float(sale.total_amount) ...)` is a
left fold of binary64 additions; the average is the binary64 division of
that revenue by the record count, or the integer `0` for an empty list. -/
def update_statistics (sales_history : List SalesHistory) : Stats :=
  let total_quantity := sales_history.foldl (fun acc s => acc + s.quantity) 0
  let total_revenue :=
    sales_history.foldl (fun acc s => float64round (acc + float64round s.total_amount)) 0
  let avg_sale :=
    if sales_history.isEmpty then 0
    else float64round (total_revenue / (sales_history.length : ℚ))
  { total_quantity := total_quantity
    total_revenue := total_revenue
    avg_sale := avg_sale }

instance {ε α : Type} [DecidableEq ε] [DecidableEq α] : DecidableEq (Except ε α) :=
  fun x y =>
    match x, y with
    | Except.ok a, Except.ok b =>
      match decEq a b with
      | isTrue h => isTrue (h ▸ rfl)
      | isFalse h => isFalse (fun he => h (Except.ok.inj he))
    | Except.error a, Except.error b =>
      match decEq a b with
      | isTrue h => isTrue (h ▸ rfl)
      | isFalse h => isFalse (fun he => h (Except.error.inj he))
    | Except.ok _, Except.error _ => isFalse (fun he => Except.noConfusion he)
    | Except.error _, Except.ok _ => isFalse (fun he => Except.noConfusion he)

/-! ## Concrete fixtures used by the evaluation theorems and witnesses -/

/-- A fresh database (the schema just created, no seed rows). -/
def emptyDB : DB :=
  { manufacturers := []
    products := []
    relations := []
    sales := []
    nextProductId := 1
    nextRelationId := 1
    nextSaleId := 1 }

/-- The product of the repository's own test `test_sales_history`:
name and note transliterated, price `Decimal("99.99")`, no manufacturer. -/
def prod9999 : Product :=
  { id := 0
    name := "Sale"
    price := (9999 : ℚ) / 100
    description := ""
    image_path := ""
    manufacturer_id := none
    is_active := true }

/-- The database after saving `prod9999` into a fresh database. -/
def dbC1 : DB := ((save_product emptyDB prod9999).getD (0, emptyDB)).2

/-- A small populated database: two manufacturers, four products (one
inactive), three relation edges (one of them to the inactive product), one
sale. -/
def dbW : DB :=
  { manufacturers := [{ id := 1, name := "Toyota" }, { id := 2, name := "Honda" }]
    products :=
      [{ id := 1, name := "Oil", price := 2500, description := "engine oil",
         image_path := "oil.png", manufacturer_id := some 1, is_active := true },
       { id := 2, name := "Filter", price := 1200, description := "air filter",
         image_path := "", manufacturer_id := some 1, is_active := true },
       { id := 3, name := "Pads", price := 4500, description := "brake pads",
         image_path := "", manufacturer_id := some 2, is_active := true },
       { id := 4, name := "Zulu", price := 800, description := "discontinued",
         image_path := "", manufacturer_id := none, is_active := false }]
    relations :=
      [{ id := 1, main_product_id := 1, related_product_id := 2 },
       { id := 2, main_product_id := 1, related_product_id := 4 },
       { id := 3, main_product_id := 3, related_product_id := 1 },
       { id := 4, main_product_id := 3, related_product_id := 2 }]
    sales := [{ id := 1, product_id := 1, quantity := 2, total_amount := 5000,
                customer_info := "c1" }]
    nextProductId := 5
    nextRelationId := 5
    nextSaleId := 2 }

/-! ## C1 -/

/-- C1, evaluation at the failing input.  Saving a product whose price is the
exact decimal 99.99 and fetching it back yields the name unchanged but a
price that is NOT 99.99: the source stores `float(price)`, the binary64
value 7036170730324623 / 2^46 = 99.98999999999999488…, so the price is
persisted as binary floating point, not as an exact fixed-point decimal,
contrary to the claim. -/
theorem c1_price_roundtrip_not_exact :
    (get_product_by_id dbC1 1).map (fun v => v.name) = some "Sale"
  ∧ (get_product_by_id dbC1 1).map (fun v => v.price) ≠ some ((9999 : ℚ) / 100)
  ∧ (get_product_by_id dbC1 1).map (fun v => v.price) =
      some ((7036170730324623 : ℚ) / 70368744177664) := by
  refine ⟨by decide, by decide, by decide⟩

/-! ## C2 -/

/-- C2, evaluation at the failing input of the repository's own test
`test_sales_history`: a sale of quantity 2 of the product saved with price
99.99 stores `total_amount` 7036170730324623 / 2^45 = 199.97999999999998977…,
not the exact decimal 199.98 that the claim (and the test's own assertion)
require. -/
theorem c2_sale_total_not_exact :
    (add_sale dbC1 1 2 "client").1 = Except.ok 1
  ∧ ((add_sale dbC1 1 2 "client").2.sales.map SalesHistory.total_amount ≠
      [(19998 : ℚ) / 100])
  ∧ ((add_sale dbC1 1 2 "client").2.sales.map SalesHistory.total_amount =
      [(7036170730324623 : ℚ) / 35184372088832]) := by
  refine ⟨by decide, by decide, by decide⟩

/-! ## C3 -/

/-- C3: `save_product` touches only the `products` table; every accepted
save (insert or update, whatever fields it edits -- in particular a price
edit) leaves the sales ledger, and hence every recorded sale's stored
`total_amount`, unchanged, as well as the relation edges. -/
theorem c3_save_product_preserves_sales (db : DB) (p : Product) (rid : Nat)
    (db' : DB) (h : save_product db p = some (rid, db')) :
    db'.sales = db.sales ∧ db'.relations = db.relations := by
  unfold save_product at h
  dsimp only at h
  split at h
  · split at h
    · exact absurd h (by simp)
    · simp only [Option.some.injEq, Prod.mk.injEq] at h
      obtain ⟨-, h2⟩ := h
      subst h2
      exact ⟨rfl, rfl⟩
  · split at h
    · exact absurd h (by simp)
    · simp only [Option.some.injEq, Prod.mk.injEq] at h
      obtain ⟨-, h2⟩ := h
      subst h2
      exact ⟨rfl, rfl⟩

/-- The database of `dbC1` after additionally recording the quantity-2 sale. -/
def dbSold : DB := (add_sale dbC1 1 2 "client").2

/-- The result of editing the sold product's price afterwards. -/
def dbRepriced : DB := ((save_product dbSold
  { id := 1, name := "Sale", price := 150, description := "", image_path := "",
    manufacturer_id := none, is_active := true }).getD (0, emptyDB)).2

/-- Witness for C3: a concrete price edit after a recorded sale, with the
hypothesis discharged by evaluation. -/
theorem c3_witness :
    save_product dbSold
      { id := 1, name := "Sale", price := 150, description := "", image_path := "",
        manufacturer_id := none, is_active := true } = some (1, dbRepriced)
  ∧ dbRepriced.sales = dbSold.sales :=
  ⟨by decide,
   (c3_save_product_preserves_sales dbSold
     { id := 1, name := "Sale", price := 150, description := "", image_path := "",
       manufacturer_id := none, is_active := true } 1 dbRepriced (by decide)).1⟩

/-! ## C7 -/

/-- C7: when the product id does not resolve, `add_sale` reports the typed
"product not found" failure (`ValueError` in the source) and returns with
the database -- in particular the sales ledger -- completely unchanged: no
record is inserted. -/
theorem c7_add_sale_not_found (db : DB) (pid q : Nat) (s : String)
    (h : get_product_by_id db pid = none) :
    add_sale db pid q s = (Except.error SaleError.productNotFound, db) := by
  unfold add_sale
  rw [h]

/-- Witness for C7: product 99 does not exist in `dbW`. -/
theorem c7_witness :
    get_product_by_id dbW 99 = none
  ∧ add_sale dbW 99 1 "x" = (Except.error SaleError.productNotFound, dbW) :=
  ⟨by decide, c7_add_sale_not_found dbW 99 1 "x" (by decide)⟩

/-! ## C6 -/

/-- The binary64 value nearest 0.1, as stored for a sale whose product price
was entered as `Decimal("0.1")` with quantity 1. -/
def recTenth : SalesHistory :=
  { id := 1, product_id := 1, quantity := 1,
    total_amount := (3602879701896397 : ℚ) / 36028797018963968,
    customer_info := "" }

/-- Three sales records, each with the stored (binary64) total 0.1. -/
def threeTenths : List SalesHistory :=
  [recTenth, { recTenth with id := 2 }, { recTenth with id := 3 }]

/-- Counterexample to C6 as stated: the revenue reported by the statistics
routine is the left-to-right binary64 accumulation of the stored totals,
which on three stored totals of binary64 0.1 each yields
5404319552844596 / 2^54 = 0.30000000000000004…, not their exact sum
10808639105689191 / 2^55; so "total revenue = the sum of stored totals" is
false. -/
theorem c6_revenue_not_exact_sum :
    (update_statistics threeTenths).total_revenue ≠
      (threeTenths.map SalesHistory.total_amount).sum
  ∧ (update_statistics threeTenths).total_revenue =
      (5404319552844596 : ℚ) / 18014398509481984 := by
  refine ⟨by decide, by decide⟩

/-- Auxiliary: the quantity accumulator of `update_statistics` is a plain
integer sum. -/
theorem foldl_quantity (l : List SalesHistory) (n : Nat) :
    l.foldl (fun acc s => acc + s.quantity) n = n + (l.map SalesHistory.quantity).sum := by
  induction l generalizing n with
  | nil => simp
  | cons a t ih => simp [ih, Nat.add_assoc]

/-- C6 as amended: the total quantity is the exact sum of the quantities
(Python integer arithmetic); on the empty sequence the statistics are
(0, 0, 0) and no division failure occurs; for a nonempty sequence the
average is the binary64 division of the computed revenue by the record
count, the revenue itself being the binary64 accumulation of the stored
totals (which can differ from their exact sum by rounding, see the
counterexample). -/
theorem c6_statistics_amended (sales : List SalesHistory) :
    (update_statistics sales).total_quantity = (sales.map SalesHistory.quantity).sum
  ∧ update_statistics [] = { total_quantity := 0, total_revenue := 0, avg_sale := 0 }
  ∧ (sales ≠ [] →
      (update_statistics sales).avg_sale =
        float64round ((update_statistics sales).total_revenue / (sales.length : ℚ))) := by
  refine ⟨?_, by decide, ?_⟩
  · simpa using foldl_quantity sales 0
  · intro h
    cases sales with
    | nil => exact absurd rfl h
    | cons a t => rfl

/-- Witness for C6 (amended): the average clause evaluated on the concrete
three-record list. -/
theorem c6_witness :
    threeTenths ≠ ([] : List SalesHistory)
  ∧ (update_statistics threeTenths).avg_sale =
      float64round ((update_statistics threeTenths).total_revenue /
        (threeTenths.length : ℚ)) :=
  ⟨by decide, (c6_statistics_amended threeTenths).2.2 (by decide)⟩

/-! ## Characterisation helpers -/

/-- Membership in the result of `get_related_products`, unfolded to the
underlying relation row and joined product row. -/
theorem mem_get_related_products (db : DB) (pid : Nat) (rel : ProductRelationView) :
    rel ∈ get_related_products db pid ↔
      ∃ r ∈ db.relations, r.main_product_id = pid ∧
        ∃ p, db.products.find? (fun q => q.id == r.related_product_id) = some p ∧
          p.is_active = true ∧
          rel = { id := r.id
                  main_product_id := r.main_product_id
                  related_product_id := r.related_product_id
                  related_product :=
                    { id := r.related_product_id
                      name := p.name
                      price := p.price
                      description := ""
                      image_path := p.image_path
                      manufacturer_id := some 0
                      is_active := p.is_active } } := by
  unfold get_related_products
  rw [List.mem_filterMap]
  constructor
  · rintro ⟨r, hr, hf⟩
    refine ⟨r, hr, ?_⟩
    by_cases hm : r.main_product_id == pid
    · rw [if_pos hm] at hf
      refine ⟨by exact beq_iff_eq.mp hm, ?_⟩
      cases hp : db.products.find? (fun q => q.id == r.related_product_id) with
      | none => rw [hp] at hf; exact absurd hf (by simp)
      | some p =>
        rw [hp] at hf
        dsimp only at hf
        by_cases ha : p.is_active
        · rw [if_pos ha] at hf
          exact ⟨p, rfl, ha, (Option.some.inj hf).symm⟩
        · rw [if_neg ha] at hf
          exact absurd hf (by simp)
    · rw [if_neg hm] at hf
      exact absurd hf (by simp)
  · rintro ⟨r, hr, hm, p, hp, ha, he⟩
    refine ⟨r, hr, ?_⟩
    rw [if_pos (by exact beq_iff_eq.mpr hm), hp]
    dsimp only
    rw [if_pos ha, he]

/-- Membership in the result of `get_available_products_for_relation`,
unfolded to the underlying product row. -/
theorem mem_get_available (db : DB) (pid : Nat) (v : ProductView) :
    v ∈ get_available_products_for_relation db pid ↔
      ∃ p ∈ db.products, p.id ≠ pid ∧ p.is_active = true ∧
        (∀ r ∈ db.relations,
          ¬(r.main_product_id = pid ∧ r.related_product_id = p.id)) ∧
        v = decorateNoCount db p := by
  unfold get_available_products_for_relation
  rw [List.mem_insertionSort, List.mem_map]
  constructor
  · rintro ⟨p, hp, hv⟩
    rw [List.mem_filter] at hp
    obtain ⟨hmem, hpred⟩ := hp
    simp only [Bool.and_eq_true, bne_iff_ne, ne_eq, Bool.not_eq_true',
      List.any_eq_false, Bool.and_eq_true, beq_iff_eq] at hpred
    obtain ⟨⟨hid, hact⟩, hnorel⟩ := hpred
    refine ⟨p, hmem, hid, hact, ?_, hv.symm⟩
    intro r hr hcon
    exact (hnorel r hr) ⟨hcon.1, hcon.2⟩
  · rintro ⟨p, hmem, hid, hact, hnorel, hv⟩
    refine ⟨p, ?_, hv.symm⟩
    rw [List.mem_filter]
    refine ⟨hmem, ?_⟩
    simp only [Bool.and_eq_true, bne_iff_ne, ne_eq, Bool.not_eq_true',
      List.any_eq_false, Bool.and_eq_true, beq_iff_eq]
    exact ⟨⟨hid, hact⟩, fun r hr hcon => hnorel r hr ⟨hcon.1, hcon.2⟩⟩

/-! ## C4 -/

/-- C4: after `delete_product db pid`, (i) no relation edge has the deleted
product as either endpoint, (ii) `get_related_products` on the deleted id is
empty, (iii) the deleted id no longer resolves, (iv) no edge returned by
`get_related_products` for any product references the deleted id, and (v) no
candidate returned by `get_available_products_for_relation` for any product
is the deleted product. -/
theorem c4_delete_product_graph_clean (db : DB) (pid : Nat) :
    (∀ r ∈ (delete_product db pid).relations,
      r.main_product_id ≠ pid ∧ r.related_product_id ≠ pid)
  ∧ get_related_products (delete_product db pid) pid = []
  ∧ get_product_by_id (delete_product db pid) pid = none
  ∧ (∀ q, ∀ rel ∈ get_related_products (delete_product db pid) q,
      rel.related_product_id ≠ pid)
  ∧ (∀ q, ∀ v ∈ get_available_products_for_relation (delete_product db pid) q,
      v.id ≠ pid) := by
  have hrel : ∀ r ∈ (delete_product db pid).relations,
      r.main_product_id ≠ pid ∧ r.related_product_id ≠ pid := by
    intro r hr
    have := (List.mem_filter.mp hr).2
    simpa [Bool.not_eq_true', Bool.or_eq_false_iff] using this
  have hprod : ∀ p ∈ (delete_product db pid).products, p.id ≠ pid := by
    intro p hp
    have := (List.mem_filter.mp hp).2
    simpa using this
  refine ⟨hrel, ?_, ?_, ?_, ?_⟩
  · unfold get_related_products
    rw [List.filterMap_eq_nil_iff]
    intro r hr
    rw [if_neg ?_]
    exact fun hc => (hrel r hr).1 (beq_iff_eq.mp hc)
  · unfold get_product_by_id
    have hn : (delete_product db pid).products.find? (fun p => p.id == pid) = none :=
      List.find?_eq_none.mpr (fun p hp => by simpa using hprod p hp)
    rw [hn]
    rfl
  · intro q rel hm
    obtain ⟨r, hr, -, p, -, -, he⟩ := (mem_get_related_products _ q rel).mp hm
    have : rel.related_product_id = r.related_product_id := by rw [he]
    rw [this]
    exact (hrel r hr).2
  · intro q v hv
    obtain ⟨p, hp, -, -, -, he⟩ := (mem_get_available _ q v).mp hv
    have : v.id = p.id := by rw [he]; rfl
    rw [this]
    exact hprod p hp

/-- Witness for C4: deleting product 1 of the populated database empties its
related-products view (it had two outgoing edges and one incoming edge), and
the one surviving edge (3, 2) references it on neither side. -/
theorem c4_witness :
    get_related_products (delete_product dbW 1) 1 = []
  ∧ ({ id := 4, main_product_id := 3, related_product_id := 2 } : ProductRelation) ∈
      (delete_product dbW 1).relations
  ∧ ({ id := 4, main_product_id := 3, related_product_id := 2 } :
      ProductRelation).main_product_id ≠ 1
  ∧ ({ id := 4, main_product_id := 3, related_product_id := 2 } :
      ProductRelation).related_product_id ≠ 1 :=
  ⟨(c4_delete_product_graph_clean dbW 1).2.1,
   by decide,
   ((c4_delete_product_graph_clean dbW 1).1 _ (by decide)).1,
   ((c4_delete_product_graph_clean dbW 1).1 _ (by decide)).2⟩

/-! ## C5 -/

/-- C5: `add_related_product` fails softly (returns `none`, state unchanged)
exactly when the ordered pair already exists or the two ids are equal; in
particular a self-relation always fails softly, a fresh pair is created and
its new identity returned, and adding the same pair twice leaves exactly one
such edge. -/
theorem c5_add_relation_soft_fail (db : DB) (a b : Nat)
    (hab : a ≠ b) (hedge : edgeExists db a b = false) :
    (∀ x, add_related_product db x x = (none, db))
  ∧ (∀ x y, (add_related_product db x y).1 = none ↔ x = y ∨ edgeExists db x y = true)
  ∧ (add_related_product db a b).1 = some db.nextRelationId
  ∧ edgeCount ((add_related_product ((add_related_product db a b).2) a b).2) a b = 1 := by
  have hguard : ∀ x y : Nat,
      (x == y || edgeExists db x y) = false ↔ ¬(x = y ∨ edgeExists db x y = true) := by
    intro x y
    simp [Bool.or_eq_false_iff]
  refine ⟨?_, ?_, ?_, ?_⟩
  · intro x
    unfold add_related_product
    rw [if_pos (by simp)]
  · intro x y
    unfold add_related_product
    by_cases hg : (x == y || edgeExists db x y) = true
    · rw [if_pos hg]
      simpa using (by simpa using hg : x = y ∨ edgeExists db x y = true)
    · rw [if_neg hg]
      constructor
      · intro hc
        exact absurd hc (by simp)
      · intro hc
        exact absurd hc ((hguard x y).mp (Bool.not_eq_true _ ▸ Bool.of_not_eq_true hg))
  · unfold add_related_product
    rw [if_neg (by simp [hab, hedge])]
  · have hcount0 : edgeCount db a b = 0 := by
      unfold edgeCount
      rw [List.filter_eq_nil_iff.mpr, List.length_nil]
      intro r hr
      have := List.any_eq_false.mp hedge r hr
      simpa using this
    have hex1 : edgeExists
        { db with
          relations := db.relations ++
            [{ id := db.nextRelationId, main_product_id := a, related_product_id := b }]
          nextRelationId := db.nextRelationId + 1 } a b = true := by
      unfold edgeExists
      rw [List.any_eq_true]
      exact ⟨{ id := db.nextRelationId, main_product_id := a, related_product_id := b },
        by simp, by simp⟩
    have h1 : add_related_product db a b =
        (some db.nextRelationId,
         { db with
           relations := db.relations ++
             [{ id := db.nextRelationId, main_product_id := a, related_product_id := b }]
           nextRelationId := db.nextRelationId + 1 }) := by
      unfold add_related_product
      rw [if_neg (by simp [hab, hedge])]
    have h2 : add_related_product
        { db with
          relations := db.relations ++
            [{ id := db.nextRelationId, main_product_id := a, related_product_id := b }]
          nextRelationId := db.nextRelationId + 1 } a b =
        (none,
         { db with
           relations := db.relations ++
             [{ id := db.nextRelationId, main_product_id := a, related_product_id := b }]
           nextRelationId := db.nextRelationId + 1 }) := by
      unfold add_related_product
      rw [if_pos (by simp [hex1])]
    rw [h1, h2]
    unfold edgeCount at hcount0 ⊢
    dsimp only
    rw [List.filter_append, List.length_append, hcount0]
    simp

/-- Witness for C5: products 2 and 3 of the populated database are distinct
and unlinked, so the soft-failure and double-add properties hold there. -/
theorem c5_witness :
    (2 : Nat) ≠ 3
  ∧ edgeExists dbW 2 3 = false
  ∧ edgeCount ((add_related_product ((add_related_product dbW 2 3).2) 2 3).2) 2 3 = 1 :=
  ⟨by decide, by decide,
   (c5_add_relation_soft_fail dbW 2 3 (by decide) (by decide)).2.2.2⟩

/-! ## C9 -/

/-- Sorting a decorated row list and stripping the decoration again is a
permutation of the original rows. -/
theorem perm_sort_decorate (db : DB) (r : ProductView → ProductView → Prop)
    [DecidableRel r] (l : List Product) :
    List.Perm ((List.insertionSort r (l.map (decorate db))).map ProductView.toProduct) l := by
  refine ((List.perm_insertionSort r _).map ProductView.toProduct).trans ?_
  rw [List.map_map]
  have h : ProductView.toProduct ∘ decorate db = id := rfl
  rw [h, List.map_id]

/-- C9: `get_all_products` returns the rows sorted by name ascending
whenever no price sort is requested (in particular by default), supports
both price orders, filters by exact match on the manufacturer reference
when one is given, and returns every product when the filter is absent. -/
theorem c9_list_products_order_filter (db : DB) (mf : Option Nat) (m : Nat)
    (so : String) (hm : m ≠ 0) :
    List.Sorted viewNameLe (get_all_products db mf none so)
  ∧ List.Perm ((get_all_products db none none so).map ProductView.toProduct) db.products
  ∧ List.Perm ((get_all_products db (some m) none so).map ProductView.toProduct)
      (db.products.filter (fun p => p.manufacturer_id == some m))
  ∧ List.Sorted viewPriceLe (get_all_products db mf (some "price") "ASC")
  ∧ List.Sorted viewPriceGe (get_all_products db mf (some "price") "DESC") := by
  have hmt : manufacturerTruthy (some m) = true := by
    simp [manufacturerTruthy, hm]
  refine ⟨?_, ?_, ?_, ?_, ?_⟩
  · show List.Sorted viewNameLe (List.insertionSort viewNameLe _)
    exact List.sorted_insertionSort viewNameLe _
  · exact perm_sort_decorate db viewNameLe db.products
  · have hrw : get_all_products db (some m) none so =
        List.insertionSort viewNameLe
          ((db.products.filter (fun p => p.manufacturer_id == some m)).map (decorate db)) := by
      simp only [get_all_products, hmt]
      rfl
    rw [hrw]
    exact perm_sort_decorate db viewNameLe _
  · show List.Sorted viewPriceLe (List.insertionSort viewPriceLe _)
    exact List.sorted_insertionSort viewPriceLe _
  · show List.Sorted viewPriceGe (List.insertionSort viewPriceGe _)
    exact List.sorted_insertionSort viewPriceGe _

/-- Witness for C9: filtering the populated database by manufacturer 1
returns exactly its two Toyota products. -/
theorem c9_witness :
    (1 : Nat) ≠ 0
  ∧ List.Perm ((get_all_products dbW (some 1) none "ASC").map ProductView.toProduct)
      (dbW.products.filter (fun p => p.manufacturer_id == some 1)) :=
  ⟨by decide, (c9_list_products_order_filter dbW none 1 "ASC" (by decide)).2.2.1⟩

/-! ## C8 -/

/-- In a table whose ids are unique, looking a row up by the id of a member
returns exactly that member. -/
theorem find?_eq_some_of_nodup (l : List Product) (h : (l.map Product.id).Nodup)
    (p : Product) (hp : p ∈ l) (i : Nat) (hi : p.id = i) :
    l.find? (fun q => q.id == i) = some p := by
  induction l with
  | nil => cases hp
  | cons a t ih =>
    have hnd : a.id ∉ t.map Product.id ∧ (t.map Product.id).Nodup := by
      rw [List.map_cons, List.nodup_cons] at h
      exact h
    by_cases ha : a.id = i
    · have hpa : p = a := by
        cases List.mem_cons.mp hp with
        | inl h' => exact h'
        | inr h' =>
          exact absurd (ha ▸ hi ▸ List.mem_map.mpr ⟨p, h', rfl⟩) hnd.1
      subst hpa
      exact List.find?_cons_of_pos _ (by simpa using ha)
    · have hne : p ≠ a := fun he => ha (by rw [← he, hi])
      have hpt : p ∈ t := (List.mem_cons.mp hp).resolve_left hne
      rw [List.find?_cons_of_neg _ (by simpa using ha)]
      exact ih hnd.2 hpt

/-- C8: in a database with unique product ids, the available-targets query
returns exactly the active products other than the given one whose id is not
among the targets listed by `get_related_products` (the complement over the
active products), and `get_related_products` returns only edges from the
given product whose resolved target is active. -/
theorem c8_available_complement (db : DB) (pid : Nat)
    (h : (db.products.map Product.id).Nodup) :
    (∀ i : Nat,
      (∃ v ∈ get_available_products_for_relation db pid, v.id = i) ↔
        ((∃ p ∈ db.products, p.id = i ∧ p.is_active = true) ∧ i ≠ pid ∧
          i ∉ (get_related_products db pid).map ProductRelationView.related_product_id))
  ∧ (∀ rel ∈ get_related_products db pid,
      rel.main_product_id = pid ∧
      ∃ p ∈ db.products, p.id = rel.related_product_id ∧ p.is_active = true) := by
  constructor
  · intro i
    constructor
    · rintro ⟨v, hv, hvi⟩
      obtain ⟨p, hp, hpid, hact, hnorel, hveq⟩ := (mem_get_available db pid v).mp hv
      have hpi : p.id = i := by
        have hid : v.id = p.id := by rw [hveq]; rfl
        rw [← hid, hvi]
      refine ⟨⟨p, hp, hpi, hact⟩, hpi ▸ hpid, ?_⟩
      intro hmem
      rw [List.mem_map] at hmem
      obtain ⟨rel, hrelmem, hreli⟩ := hmem
      obtain ⟨r, hr, hmain, p', hf, hact', he⟩ :=
        (mem_get_related_products db pid rel).mp hrelmem
      have hrel_i : r.related_product_id = i := by rw [← hreli, he]
      exact hnorel r hr ⟨hmain, by rw [hrel_i, ← hpi]⟩
    · rintro ⟨⟨p, hp, hpi, hact⟩, hipid, hnot⟩
      refine ⟨decorateNoCount db p, ?_, hpi⟩
      rw [mem_get_available]
      refine ⟨p, hp, by rw [hpi]; exact hipid, hact, ?_, rfl⟩
      intro r hr hcon
      apply hnot
      rw [List.mem_map]
      have hf : db.products.find? (fun q => q.id == r.related_product_id) = some p :=
        find?_eq_some_of_nodup db.products h p hp r.related_product_id hcon.2.symm
      refine ⟨{ id := r.id
                main_product_id := r.main_product_id
                related_product_id := r.related_product_id
                related_product :=
                  { id := r.related_product_id
                    name := p.name
                    price := p.price
                    description := ""
                    image_path := p.image_path
                    manufacturer_id := some 0
                    is_active := p.is_active } }, ?_, ?_⟩
      · rw [mem_get_related_products]
        exact ⟨r, hr, hcon.1, p, hf, hact, rfl⟩
      · show r.related_product_id = i
        rw [hcon.2, hpi]
  · intro rel hm
    obtain ⟨r, hr, hmain, p, hf, hact, he⟩ :=
      (mem_get_related_products db pid rel).mp hm
    constructor
    · rw [he]
      exact hmain
    · refine ⟨p, List.mem_of_find?_eq_some hf, ?_, hact⟩
      have hpr := List.find?_some hf
      rw [he]
      exact beq_iff_eq.mp hpr

/-- Witness for C8: in the populated database, product 3 is active, distinct
from product 1 and not among product 1's listed targets, so it is available
as a relation target for product 1. -/
theorem c8_witness :
    (dbW.products.map Product.id).Nodup
  ∧ ((∃ v ∈ get_available_products_for_relation dbW 1, v.id = 3) ↔
      ((∃ p ∈ dbW.products, p.id = 3 ∧ p.is_active = true) ∧ (3 : Nat) ≠ 1 ∧
        3 ∉ (get_related_products dbW 1).map ProductRelationView.related_product_id)) :=
  ⟨by decide, (c8_available_complement dbW 1 (by decide)).1 3⟩

/-! ## C10 -/

/-- C10: every edge returned by `get_related_products` embeds a target
`Product` that carries the target row's id, name, price, image path and
active flag, but whose `description` is always the empty string and whose
`manufacturer_id` is always the literal 0 (`some 0`), regardless of the
stored row's actual description and manufacturer reference. -/
theorem c10_related_view_fields (db : DB) (pid : Nat) (rel : ProductRelationView)
    (h : rel ∈ get_related_products db pid) :
    rel.related_product.description = ""
  ∧ rel.related_product.manufacturer_id = some 0
  ∧ rel.related_product.id = rel.related_product_id
  ∧ ∃ p ∈ db.products, p.id = rel.related_product_id ∧
      rel.related_product.name = p.name ∧
      rel.related_product.price = p.price ∧
      rel.related_product.image_path = p.image_path ∧
      rel.related_product.is_active = p.is_active := by
  obtain ⟨r, hr, hmain, p, hf, hact, he⟩ := (mem_get_related_products db pid rel).mp h
  have hpq := List.find?_some hf
  have hpid : p.id = r.related_product_id := by simpa using hpq
  subst he
  exact ⟨rfl, rfl, rfl,
    p, List.mem_of_find?_eq_some hf, hpid, rfl, rfl, rfl, rfl⟩

/-- Witness for C10: the single edge listed for product 1 of the populated
database embeds product 2 with its stored name, price, image path and active
flag, but with an empty description (the stored one is "air filter") and
`manufacturer_id` 0 (the stored one is manufacturer 1). -/
theorem c10_witness :
    ({ id := 1, main_product_id := 1, related_product_id := 2,
       related_product :=
         { id := 2, name := "Filter", price := 1200, description := "",
           image_path := "", manufacturer_id := some 0, is_active := true } } :
      ProductRelationView) ∈ get_related_products dbW 1
  ∧ ({ id := 1, main_product_id := 1, related_product_id := 2,
       related_product :=
         { id := 2, name := "Filter", price := 1200, description := "",
           image_path := "", manufacturer_id := some 0, is_active := true } } :
      ProductRelationView).related_product.description = ""
  ∧ ({ id := 1, main_product_id := 1, related_product_id := 2,
       related_product :=
         { id := 2, name := "Filter", price := 1200, description := "",
           image_path := "", manufacturer_id := some 0, is_active := true } } :
      ProductRelationView).related_product.manufacturer_id = some 0 :=
  ⟨by decide,
   (c10_related_view_fields dbW 1 _ (by decide)).1,
   (c10_related_view_fields dbW 1 _ (by decide)).2.1⟩
